import Mathlib

/-!
Verification development for the aiter kernel-resolution-and-execution-cache
subsystem: a shallow embedding of the caching/loading header
(`SignatureCodec`, `IdentifierCache`, `ArtifactCache`, `KernelInvoker`) and of
the GEMM shape dispatcher in `csrc/ck_gemm_a8w8/gemm_a8w8.cu`, together with
theorems settling the spec's testable properties.

Strings from the C++ side are embedded as `List Char` where structural
reasoning (case folding, joining) is needed, and as `String` for plain paths.
Machine integers are embedded as `Nat`/`Int`; 32-bit wraparound is made
explicit (`% 4294967296`) inside the MD5 digest, the only place the source
relies on modular arithmetic.
-/

/- ### MD5 digest (the `EVP_md5` call inside `hash_signature`) -/

/-- One 32-bit modular addition (`% 2^32`). -/
def add32 (a b : Nat) : Nat := (a + b) % 4294967296

/-- Bitwise complement on 32 bits. -/
def not32 (x : Nat) : Nat := x ^^^ 4294967295

/-- Left rotation of a 32-bit word by `s` places (for `x < 2^32`, `s < 32`). -/
def rotl32 (x s : Nat) : Nat := ((x <<< s) + (x >>> (32 - s))) % 4294967296

/-- Round function F of MD5. -/
def md5F (b c d : Nat) : Nat := (b &&& c) ||| (not32 b &&& d)

/-- Round function G of MD5. -/
def md5G (b c d : Nat) : Nat := (d &&& b) ||| (not32 d &&& c)

/-- Round function H of MD5. -/
def md5H (b c d : Nat) : Nat := b ^^^ c ^^^ d

/-- Round function I of MD5. -/
def md5I (b c d : Nat) : Nat := c ^^^ (b ||| not32 d)

/-- The 64 MD5 round constants, `floor(abs(sin(i + 1)) * 2^32)`. -/
def md5K : List Nat :=
  [3614090360, 3905402710, 606105819, 3250441966, 4118548399, 1200080426,
   2821735955, 4249261313, 1770035416, 2336552879, 4294925233, 2304563134,
   1804603682, 4254626195, 2792965006, 1236535329, 4129170786, 3225465664,
   643717713, 3921069994, 3593408605, 38016083, 3634488961, 3889429448,
   568446438, 3275163606, 4107603335, 1163531501, 2850285829, 4243563512,
   1735328473, 2368359562, 4294588738, 2272392833, 1839030562, 4259657740,
   2763975236, 1272893353, 4139469664, 3200236656, 681279174, 3936430074,
   3572445317, 76029189, 3654602809, 3873151461, 530742520, 3299628645,
   4096336452, 1126891415, 2878612391, 4237533241, 1700485571, 2399980690,
   4293915773, 2240044497, 1873313359, 4264355552, 2734768916, 1309151649,
   4149444226, 3174756917, 718787259, 3951481745]

/-- The per-round left-rotation amounts of MD5. -/
def md5S : List Nat :=
  [7, 12, 17, 22, 7, 12, 17, 22, 7, 12, 17, 22, 7, 12, 17, 22,
   5, 9, 14, 20, 5, 9, 14, 20, 5, 9, 14, 20, 5, 9, 14, 20,
   4, 11, 16, 23, 4, 11, 16, 23, 4, 11, 16, 23, 4, 11, 16, 23,
   6, 10, 15, 21, 6, 10, 15, 21, 6, 10, 15, 21, 6, 10, 15, 21]

/-- One MD5 round: `m` is the 16-word message schedule of the current chunk,
`i` the round index. -/
def md5step (m : Nat → Nat) (st : Nat × Nat × Nat × Nat) (i : Nat) :
    Nat × Nat × Nat × Nat :=
  let a := st.1
  let b := st.2.1
  let c := st.2.2.1
  let d := st.2.2.2
  let fg : Nat × Nat :=
    if i < 16 then (md5F b c d, i)
    else if i < 32 then (md5G b c d, (5 * i + 1) % 16)
    else if i < 48 then (md5H b c d, (3 * i + 5) % 16)
    else (md5I b c d, (7 * i) % 16)
  let f := (fg.1 + a + md5K.getD i 0 + m fg.2) % 4294967296
  (d, add32 b (rotl32 f (md5S.getD i 0)), b, c)

/-- Process one padded 64-byte chunk, updating the running digest state. -/
def md5chunk (h : Nat × Nat × Nat × Nat) (chunk : List Nat) :
    Nat × Nat × Nat × Nat :=
  let m : Nat → Nat := fun j =>
    chunk.getD (4 * j) 0 + 256 * chunk.getD (4 * j + 1) 0 +
    65536 * chunk.getD (4 * j + 2) 0 + 16777216 * chunk.getD (4 * j + 3) 0
  let r := (List.range 64).foldl (md5step m) h
  (add32 h.1 r.1, add32 h.2.1 r.2.1, add32 h.2.2.1 r.2.2.1,
   add32 h.2.2.2 r.2.2.2)

/-- MD5 padding: append `0x80`, zeros to 56 mod 64, then the bit length as a
64-bit little-endian quantity. -/
def md5pad (msg : List Nat) : List Nat :=
  let len := msg.length
  let r := (len + 1) % 64
  msg ++ [128] ++ List.replicate ((120 - r) % 64) 0 ++
    (List.range 8).map (fun j => ((8 * len) >>> (8 * j)) % 256)

/-- Split a byte list into 64-byte chunks, structurally recursive on a fuel
argument so that the kernel can evaluate it (the fuel is always sufficient
because every step consumes at least one element). -/
def chunksFuel : Nat → List Nat → List (List Nat)
  | _, [] => []
  | 0, l => [l]
  | fuel + 1, a :: rest => ((a :: rest).take 64) :: chunksFuel fuel ((a :: rest).drop 64)

/-- Split a byte list into 64-byte chunks. -/
def chunks64 (l : List Nat) : List (List Nat) := chunksFuel l.length l

/-- The MD5 digest of a byte sequence, as the list of its 16 digest bytes. -/
def md5 (msg : List Nat) : List Nat :=
  let h := (chunks64 (md5pad msg)).foldl md5chunk
    (1732584193, 4023233417, 2562383102, 271733878)
  ((List.range 4).map fun j => (h.1 >>> (8 * j)) % 256) ++
  ((List.range 4).map fun j => (h.2.1 >>> (8 * j)) % 256) ++
  ((List.range 4).map fun j => (h.2.2.1 >>> (8 * j)) % 256) ++
  ((List.range 4).map fun j => (h.2.2.2 >>> (8 * j)) % 256)

/-- Lowercase hexadecimal digit, as produced by `std::hex` in the source. -/
def hexChar (n : Nat) : Char :=
  if n < 10 then Char.ofNat (48 + n) else Char.ofNat (87 + n)

/-- Embedding of `hash_signature`: MD5 of the signature's bytes, rendered as
lowercase zero-padded hex, two digits per byte (the `std::stringstream` loop). -/
def hash_signature (signature : List Char) : List Char :=
  ((md5 (signature.map Char.toNat)).map
    (fun b => [hexChar (b / 16), hexChar (b % 16)])).flatten

/- ### Signature canonicalization (`get_default_func_name`'s string pipeline) -/

/-- ASCII lower-casing of one character, the `std::tolower` applied by
`get_default_func_name` via `std::transform`. -/
def cToLower (c : Char) : Char :=
  if 'A' ≤ c ∧ c ≤ 'Z' then Char.ofNat (c.toNat + 32) else c

/-- Lower-case every character of a string. -/
def lowerStr (s : List Char) : List Char := s.map cToLower

/-- The `fmt::join(args, "_")` step: arguments joined with a single
underscore delimiter. -/
def joinUnderscore : List (List Char) → List Char
  | [] => []
  | [a] => a
  | a :: b :: rest => a ++ '_' :: joinUnderscore (b :: rest)

/-- The canonical signature string: the joined argument descriptors,
lower-cased (source lines forming `args_str`). -/
def canonical_signature (args : List (List Char)) : List Char :=
  lowerStr (joinUnderscore args)

/- ### `atoi` and LRU cache construction (`init_lru_cache`) -/

/-- Whitespace recognized by C `isspace` in the default locale. -/
def isSpaceC (c : Char) : Bool :=
  c = ' ' ∨ c = '\t' ∨ c = '\n' ∨ c = Char.ofNat 11 ∨ c = Char.ofNat 12 ∨ c = '\r'

/-- ASCII decimal digit test. -/
def isDigitC (c : Char) : Bool := '0' ≤ c ∧ c ≤ '9'

/-- Value of the maximal leading run of decimal digits (0 when there is none),
accumulated the way `atoi` does. -/
def digitsValue (l : List Char) : Nat :=
  (l.takeWhile isDigitC).foldl (fun acc c => 10 * acc + (c.toNat - 48)) 0

/-- C `atoi`: skip leading whitespace, consume one optional sign, then the
maximal run of digits; a string with no digits there yields 0. -/
def atoi (s : List Char) : Int :=
  match s.dropWhile isSpaceC with
  | '-' :: rest => - (Int.ofNat (digitsValue rest))
  | '+' :: rest => Int.ofNat (digitsValue rest)
  | rest => Int.ofNat (digitsValue rest)

/-- Modelled from the spec: `lru_cache.h` is not among the provided source
files, so the `LRUCache<K, V>` container follows §3 of the spec: a bounded
mapping whose least recently accessed key is evicted first when the capacity
is exceeded, with a capacity value indicating "unbounded" that disables
eviction entirely (the sentinel is the `-1` that `init_lru_cache` passes when
the environment override is absent; we treat every negative capacity as the
sentinel).  Entries are kept most-recently-used first. -/
structure LRUCache (K V : Type) where
  capacity : Int
  entries : List (K × V)

/-- Modelled from the spec: lookup refreshes recency, so a hit moves the
entry to the front; the cache is otherwise unchanged. -/
def LRUCache.get {K V : Type} [DecidableEq K] (c : LRUCache K V) (k : K) :
    Option V × LRUCache K V :=
  match c.entries.find? (fun p => decide (p.1 = k)) with
  | none => (none, c)
  | some p =>
      (some p.2, ⟨c.capacity, (k, p.2) :: c.entries.filter (fun q => decide (q.1 ≠ k))⟩)

/-- Modelled from the spec: insertion (re)binds the key at the front and, when
a non-negative capacity is exceeded, evicts from the least recently used end. -/
def LRUCache.put {K V : Type} [DecidableEq K] (c : LRUCache K V) (k : K) (v : V) :
    LRUCache K V :=
  let l := (k, v) :: c.entries.filter (fun q => decide (q.1 ≠ k))
  if 0 ≤ c.capacity ∧ c.capacity.toNat < l.length then
    ⟨c.capacity, l.take c.capacity.toNat⟩
  else
    ⟨c.capacity, l⟩

/-- Embedding of `init_lru_cache`: read the `AITER_MAX_CACHE_SIZE` override
(`none` models an unset variable, replaced by `"-1"`), convert it with `atoi`,
and construct the cache with that capacity. -/
def init_lru_cache {K V : Type} (env : Option (List Char)) : LRUCache K V :=
  ⟨atoi (match env with | none => "-1".data | some s => s), []⟩

/- ### `get_default_func_name` (IdentifierCache / SignatureCodec) -/

/-- Error side of the embedded C++ computations: every exception the header
throws is a `std::runtime_error` carrying a message; `empty_optional_deref`
marks the undefined behavior of dereferencing an empty optional (reachable
only with a zero-capacity cache, whose `put` immediately evicts). -/
inductive CppError where
  | runtime_error (msg : String)
  | empty_optional_deref
deriving DecidableEq

/-- Embedding of `get_default_func_name`: canonicalize the arguments, consult
the `func_names` LRU cache, and on a miss insert
`md_name ++ "_" ++ hash_signature args_str` and read it back. -/
def get_default_func_name (st : LRUCache (List Char) (List Char))
    (md_name : List Char) (args : List (List Char)) :
    Except CppError (LRUCache (List Char) (List Char) × List Char) :=
  let args_str := canonical_signature args
  let g := st.get args_str
  match g.1 with
  | some fn => .ok (g.2, fn)
  | none =>
      let g2 := (g.2.put args_str (md_name ++ '_' :: hash_signature args_str)).get args_str
      match g2.1 with
      | some fn => .ok (g2.2, fn)
      | none => .error .empty_optional_deref

/- ### `run_lib` / `not_built` (ArtifactHandle, ArtifactCache, KernelInvoker) -/

/-- The operating-system facilities `run_lib` calls out to (filesystem,
`dlopen`, `dlerror`, `dlsym`), abstracted as a fixed environment: which paths
exist, which existing files the dynamic loader accepts, the loader's error
message for a path, which symbols an artifact exports, and the `dlerror`
message for a missing symbol. -/
structure OS where
  fs_exist : String → Bool
  loadable : String → Bool
  dl_err : String → String
  has_symbol : String → String → Bool
  sym_err : String → String → String

/-- A `dlopen` succeeds exactly when the file exists and the loader accepts
it. -/
def OS.dlopen_ok (os : OS) (p : String) : Bool := os.fs_exist p && os.loadable p

/-- Embedding of the `SharedLibrary` handle: it records the path it was
loaded from and the identity of the OS-level load event that created it
(distinct loads get distinct `loadId`s). -/
structure SharedLibrary where
  path : String
  loadId : Nat
deriving DecidableEq

/-- The mutable state `run_lib` touches: the `libs` LRU cache, a counter
giving fresh load identities, and the log of `dlopen`ed paths (the "load
counter" §8 of the spec observes). -/
structure LibsState where
  libs : LRUCache String SharedLibrary
  nextLoadId : Nat
  loadLog : List String

/-- The expected artifact path `<root>/build/<folder>/lib.so`. -/
def libPath (root folder : String) : String :=
  root ++ "/build/" ++ folder ++ "/lib.so"

/-- Embedding of `not_built`: true when the expected artifact path does not
exist. -/
def not_built (os : OS) (root : String) (folder : String) : Bool :=
  ! os.fs_exist (libPath root folder)

/-- Embedding of `run_lib` (with the build root passed explicitly): consult
the `libs` cache; on a miss, `dlopen` the artifact at the expected path
(throwing `std::runtime_error` with the `dlerror` message on failure), insert
the handle and read it back; finally resolve the entry point named
`func_name` through `dlsym` (throwing `std::runtime_error` on failure) and
invoke it.  Returns the state after the call together with the handle whose
symbol was invoked. -/
def run_lib (os : OS) (root : String) (st : LibsState)
    (func_name folder : String) :
    Except CppError (LibsState × SharedLibrary) :=
  let g := st.libs.get func_name
  match g.1 with
  | some lib =>
      if os.has_symbol lib.path func_name then
        .ok (⟨g.2, st.nextLoadId, st.loadLog⟩, lib)
      else
        .error (.runtime_error (os.sym_err lib.path func_name))
  | none =>
      let lib_path := libPath root folder
      if os.dlopen_ok lib_path then
        let g2 := (g.2.put func_name ⟨lib_path, st.nextLoadId⟩).get func_name
        match g2.1 with
        | some lib =>
            if os.has_symbol lib.path func_name then
              .ok (⟨g2.2, st.nextLoadId + 1, st.loadLog ++ [lib_path]⟩, lib)
            else
              .error (.runtime_error (os.sym_err lib.path func_name))
        | none => .error .empty_optional_deref
      else
        .error (.runtime_error (os.dl_err lib_path))

/-- Coarse classification of an embedded C++ failure: the exception type
thrown, forgetting the message.  The header only ever throws
`std::runtime_error`. -/
inductive ErrClass where
  | runtimeErr
  | derefEmpty
deriving DecidableEq

/-- The class of an error. -/
def CppError.cls : CppError → ErrClass
  | .runtime_error _ => .runtimeErr
  | .empty_optional_deref => .derefEmpty

/-- The error class of a finished `run_lib` call, `none` on success. -/
def runErrClass (r : Except CppError (LibsState × SharedLibrary)) :
    Option ErrClass :=
  match r with
  | .ok _ => none
  | .error e => some e.cls

/- ### Shape dispatch (`gemm_a8w8.cu`) -/

/-- The kernel variants named by `rowwise_heuristic_dispatch`, plus
`lookup_variant i` standing for the anonymous entries of the generated
lookup table. -/
inductive RowwiseKernel where
  | a8w8_rowwise_256x256x128x64_32x32_4x2_4x64x1_4x64x1_1x32x1x8_8x8x1_1x1_interwave_v1
  | a8w8_rowwise_64x16x16x128_16x16_1x1_8x8x1_8x8x1_1x16x1x4_4x4x1_1x1_interwave_v2
  | a8w8_rowwise_128x16x32x128_16x16_1x1_8x16x1_8x16x1_1x16x1x8_4x4x1_1x1_intrawave_v2
  | a8w8_rowwise_128x32x16x128_16x16_1x1_8x16x1_8x16x1_1x16x1x8_2x2x1_1x1_interwave_v2
  | a8w8_rowwise_64x16x16x256_16x16_1x1_16x4x1_16x4x1_1x16x1x4_4x4x1_1x1_intrawave_v1
  | a8w8_rowwise_256x128x128x128_32x32_2x2_8x32x1_8x32x1_1x32x1x8_8x8x1_1x1_interwave_v1
  | a8w8_rowwise_256x128x128x128_32x32_2x2_8x32x1_8x32x1_1x32x1x8_8x8x1_1x1_intrawave_v3
  | a8w8_rowwise_256x224x256x128_16x16_7x8_8x32x1_8x32x1_1x32x1x8_8x8x1_1x2_intrawave_v3
  | lookup_variant (i : Nat)
deriving DecidableEq

/-- Embedding of `rowwise_heuristic_dispatch`: the fixed decision tree over
`(M, N, K)` thresholds, translated branch for branch from the source. -/
def rowwise_heuristic_dispatch (M N K : Nat) : RowwiseKernel :=
  if K < 512 then
    .a8w8_rowwise_256x256x128x64_32x32_4x2_4x64x1_4x64x1_1x32x1x8_8x8x1_1x1_interwave_v1
  else if M < 64 ∧ N < 2048 ∧ K < 2048 then
    .a8w8_rowwise_64x16x16x128_16x16_1x1_8x8x1_8x8x1_1x16x1x4_4x4x1_1x1_interwave_v2
  else if M < 64 ∧ K < 2048 then
    .a8w8_rowwise_128x16x32x128_16x16_1x1_8x16x1_8x16x1_1x16x1x8_4x4x1_1x1_intrawave_v2
  else if M < 64 ∧ N < 2048 then
    .a8w8_rowwise_128x32x16x128_16x16_1x1_8x16x1_8x16x1_1x16x1x8_2x2x1_1x1_interwave_v2
  else if M < 64 ∧ 2048 < N ∧ 2048 < K then
    .a8w8_rowwise_64x16x16x256_16x16_1x1_16x4x1_16x4x1_1x16x1x4_4x4x1_1x1_intrawave_v1
  else if M < 64 then
    .a8w8_rowwise_64x16x16x128_16x16_1x1_8x8x1_8x8x1_1x16x1x4_4x4x1_1x1_interwave_v2
  else if K < 1024 then
    .a8w8_rowwise_256x128x128x128_32x32_2x2_8x32x1_8x32x1_1x32x1x8_8x8x1_1x1_interwave_v1
  else if M < 1024 then
    .a8w8_rowwise_256x128x128x128_32x32_2x2_8x32x1_8x32x1_1x32x1x8_8x8x1_1x1_intrawave_v3
  else if 1024 ≤ M ∧ 1024 ≤ N ∧ 1024 ≤ K then
    .a8w8_rowwise_256x256x128x64_32x32_4x2_4x64x1_4x64x1_1x32x1x8_8x8x1_1x1_interwave_v1
  else
    .a8w8_rowwise_256x224x256x128_16x16_7x8_8x32x1_8x32x1_1x32x1x8_8x8x1_1x2_intrawave_v3

/-- The heuristic decision tree of §4.6 rendered as the explicit guard list
the spec describes ("evaluated top-to-bottom; the first matching branch
wins"), for comparison with the source translation
`rowwise_heuristic_dispatch`. -/
def heuristicLadder (M N K : Nat) : List (Bool × RowwiseKernel) :=
  [(decide (K < 512),
    .a8w8_rowwise_256x256x128x64_32x32_4x2_4x64x1_4x64x1_1x32x1x8_8x8x1_1x1_interwave_v1),
   (decide (M < 64 ∧ N < 2048 ∧ K < 2048),
    .a8w8_rowwise_64x16x16x128_16x16_1x1_8x8x1_8x8x1_1x16x1x4_4x4x1_1x1_interwave_v2),
   (decide (M < 64 ∧ K < 2048),
    .a8w8_rowwise_128x16x32x128_16x16_1x1_8x16x1_8x16x1_1x16x1x8_4x4x1_1x1_intrawave_v2),
   (decide (M < 64 ∧ N < 2048),
    .a8w8_rowwise_128x32x16x128_16x16_1x1_8x16x1_8x16x1_1x16x1x8_2x2x1_1x1_interwave_v2),
   (decide (M < 64 ∧ 2048 < N ∧ 2048 < K),
    .a8w8_rowwise_64x16x16x256_16x16_1x1_16x4x1_16x4x1_1x16x1x4_4x4x1_1x1_intrawave_v1),
   (decide (M < 64),
    .a8w8_rowwise_64x16x16x128_16x16_1x1_8x8x1_8x8x1_1x16x1x4_4x4x1_1x1_interwave_v2),
   (decide (K < 1024),
    .a8w8_rowwise_256x128x128x128_32x32_2x2_8x32x1_8x32x1_1x32x1x8_8x8x1_1x1_interwave_v1),
   (decide (M < 1024),
    .a8w8_rowwise_256x128x128x128_32x32_2x2_8x32x1_8x32x1_1x32x1x8_8x8x1_1x1_intrawave_v3),
   (decide (1024 ≤ M ∧ 1024 ≤ N ∧ 1024 ≤ K),
    .a8w8_rowwise_256x256x128x64_32x32_4x2_4x64x1_4x64x1_1x32x1x8_8x8x1_1x1_interwave_v1),
   (true,
    .a8w8_rowwise_256x224x256x128_16x16_7x8_8x32x1_8x32x1_1x32x1x8_8x8x1_1x2_intrawave_v3)]

/-- First-matching-branch-wins evaluation of a guard list; `none` is the
"no kernel found" terminal state. -/
def firstHit {α : Type} : List (Bool × α) → Option α
  | [] => none
  | (g, k) :: rest => if g then some k else firstHit rest

/-- Floor base-2 logarithm, structurally recursive on a fuel argument so the
kernel can evaluate it (fuel 32 suffices for every 32-bit value). -/
def log2Fuel : Nat → Nat → Nat
  | 0, _ => 0
  | fuel + 1, n => if 2 ≤ n then log2Fuel fuel (n / 2) + 1 else 0

/-- Count-leading-zeros on a 32-bit word (`__builtin_clz`), meaningful for
`1 ≤ x < 2^32`. -/
def clz32 (x : Nat) : Nat := 32 - (log2Fuel 32 x + 1)

/-- Embedding of `nextPow2`: `num ≤ 1` gives 1, otherwise
`1 << (32 - clz(num - 1))`. -/
def nextPow2 (num : Nat) : Nat :=
  if num ≤ 1 then 1 else 2 ^ (32 - clz32 (num - 1))

/-- The shape-bucketing rule applied to `M` between the two lookups of
`rowwise_dispatch` (source lines 123–135). -/
def padM (M : Nat) : Nat :=
  if 1 < M ∧ M ≤ 16 then 16
  else if M ≤ 16384 then nextPow2 M
  else if M ≤ 20480 then 20480
  else M

/-- Embedding of `rowwise_dispatch`, parameterized by the contents of the
generated lookup table (`GENERATE_LOOKUP_TABLE` is not among the provided
source files; the table is an arbitrary finite map here, modelling
`RowwiseKernelMap::find`): exact lookup, then the padded lookup, then the
heuristic. -/
def rowwise_dispatch (lookup : Nat × Nat × Nat → Option RowwiseKernel)
    (M N K : Nat) : RowwiseKernel :=
  match lookup (M, N, K) with
  | some kernel => kernel
  | none =>
      match lookup (padM M, N, K) with
      | some kernel => kernel
      | none => rowwise_heuristic_dispatch M N K

/- ### `gemm_a8w8` entry point -/

/-- The torch scalar types the entry point inspects (`at::ScalarType::Char`
is int8; `torch_fp8` is the platform fp8 type). -/
inductive TorchDType where
  | int8
  | fp8
  | float32
  | float16
  | bfloat16
  | other
deriving DecidableEq

/-- A torch tensor as `gemm_a8w8` observes it: an object identity, a dtype,
and the two leading sizes.  `tid` distinguishes distinct tensor objects of
equal shape and dtype. -/
structure TorchTensor where
  tid : Nat
  dtype : TorchDType
  size0 : Nat
  size1 : Nat
deriving DecidableEq

/-- The data-type triple selecting one `rowwise_dispatch` template
instantiation (`ABDataType`, `DDataType`, `EDataType`). -/
inductive CkType where
  | I8
  | F8
  | F32
  | F16
  | B16
deriving DecidableEq

/-- Record of the one kernel invocation `gemm_a8w8` performs: the selected
variant, the tensors forwarded to it (including the output tensor `Y`), and
the `KBatch` split-K count. -/
structure RowwiseCall where
  kernel : RowwiseKernel
  xq : TorchTensor
  wq : TorchTensor
  x_scale : TorchTensor
  w_scale : TorchTensor
  y : TorchTensor
  bias : Option TorchTensor
  kbatch : Nat
deriving DecidableEq

/-- Embedding of `gemm_a8w8`, parameterized by the lookup tables of the
template instantiations it can reach (one generated table per
`(ABDataType, DDataType, EDataType)` triple).  `TORCH_CHECK` failures are
the `.error` cases; on success the result is the record of the kernel call
together with the returned tensor (`return Y;`).

The source computes `KBatch = std::pow(2, splitK)` on `int`; with
`splitK : Nat` this is exactly `2 ^ splitK` (exact in double and in range for
every realistic split-K exponent; the `int` overflow at `splitK ≥ 31` is not
modelled). -/
def gemm_a8w8
    (tables : CkType × CkType × CkType → Nat × Nat × Nat → Option RowwiseKernel)
    (XQ WQ x_scale w_scale Y : TorchTensor) (bias : Option TorchTensor)
    (splitK : Nat) : Except String (RowwiseCall × TorchTensor) :=
  if ¬ ((XQ.dtype = .int8 ∨ XQ.dtype = .fp8) ∧ XQ.dtype = WQ.dtype) then
    .error "Weights and activations should both be int8/fp8!"
  else if ¬ (x_scale.dtype = w_scale.dtype) then
    .error "Scales should have the same dtype!"
  else if ¬ (∀ b ∈ bias, b.dtype = Y.dtype) then
    .error "Out amd bias should have the same dtype!"
  else
    let M := XQ.size0
    let N := WQ.size0
    let K := XQ.size1
    let KBatch := 2 ^ splitK
    let finish : CkType × CkType × CkType → Except String (RowwiseCall × TorchTensor) :=
      fun inst =>
        .ok (⟨rowwise_dispatch (tables inst) M N K,
              XQ, WQ, x_scale, w_scale, Y, bias, KBatch⟩, Y)
    if XQ.dtype = .int8 then
      if x_scale.dtype = .float32 ∧ Y.dtype = .float16 then
        finish (.I8, .F32, .F16)
      else if x_scale.dtype = .float32 ∧ Y.dtype = .bfloat16 then
        finish (.I8, .F32, .B16)
      else if Y.dtype = .float16 then
        finish (.I8, .F16, .F16)
      else if Y.dtype = .bfloat16 then
        finish (.I8, .B16, .B16)
      else
        .error "Unsupported scales/output dtype!"
    else
      if x_scale.dtype = .float32 ∧ Y.dtype = .float16 then
        finish (.F8, .F32, .F16)
      else if x_scale.dtype = .float32 ∧ Y.dtype = .bfloat16 then
        finish (.F8, .F32, .B16)
      else if Y.dtype = .float16 then
        finish (.F8, .F16, .F16)
      else if Y.dtype = .bfloat16 then
        finish (.F8, .B16, .B16)
      else
        .error "Unsupported scales/output dtype!"

/- ### Concrete fixtures used by witnesses and counterexamples -/

/-- Chaining two `get_or_create` calls with the same argument signature but
different module names `"a"` then `"b"`: the value the second call returns. -/
def second_module_call :
    Except CppError (LRUCache (List Char) (List Char) × List Char) :=
  match get_default_func_name (init_lru_cache none) "a".data ["x".data] with
  | .ok (st1, _) => get_default_func_name st1 "b".data ["x".data]
  | .error e => .error e

/-- A one-entry exact lookup table (an arbitrary instantiation of the
generated table). -/
def exactTable : Nat × Nat × Nat → Option RowwiseKernel :=
  fun t => if t = (128, 1536, 7168) then some (.lookup_variant 0) else none

/-- A lookup table whose only key is a padded shape `(16, 64, 64)`. -/
def paddedTable : Nat × Nat × Nat → Option RowwiseKernel :=
  fun t => if t = (16, 64, 64) then some (.lookup_variant 3) else none

/-- An environment in which no file exists and no symbol resolves. -/
def osMissing : OS :=
  ⟨fun _ => false, fun _ => false,
   fun p => p ++ ": cannot open shared object file", fun _ _ => false,
   fun _ s => "undefined symbol: " ++ s⟩

/-- An environment in which the artifact exists and loads but exports no
symbols. -/
def osNoSymbol : OS :=
  ⟨fun _ => true, fun _ => true,
   fun p => p ++ ": cannot open shared object file", fun _ _ => false,
   fun _ s => "undefined symbol: " ++ s⟩

/-- An environment in which everything exists, loads, and resolves. -/
def osOk : OS :=
  ⟨fun _ => true, fun _ => true, fun _ => "", fun _ _ => true, fun _ _ => ""⟩

/-- The invoker state before any call: an unbounded `libs` cache (environment
override absent), no loads performed. -/
def emptyLibsState : LibsState := ⟨init_lru_cache none, 0, []⟩

/-- The invoker state after one successful `run_lib "gemm_x" "gemm"` from
`emptyLibsState` under `osOk` with build root `"/r"`. -/
def loadedLibsState : LibsState :=
  ⟨⟨-1, [("gemm_x", ⟨libPath "/r" "gemm", 0⟩)]⟩, 1, [libPath "/r" "gemm"]⟩

/-- The canonical identifier for module `"gemm"` and signature
`["i8", "b16"]`. -/
def gemmId : List Char := "gemm".data ++ '_' :: hash_signature "i8_b16".data

/-- The identifier cache after one `get_or_create("gemm", ["I8", "B16"])`
from an unbounded empty cache. -/
def gemmIdCache : LRUCache (List Char) (List Char) :=
  ⟨-1, [("i8_b16".data, gemmId)]⟩

/-- Input activation tensor for the `gemm_a8w8` witnesses. -/
def xqT : TorchTensor := ⟨0, .int8, 128, 4096⟩

/-- Weight tensor for the `gemm_a8w8` witnesses. -/
def wqT : TorchTensor := ⟨1, .int8, 1792, 4096⟩

/-- Activation-scale tensor for the `gemm_a8w8` witnesses. -/
def xsT : TorchTensor := ⟨2, .float32, 128, 1⟩

/-- Weight-scale tensor for the `gemm_a8w8` witnesses. -/
def wsT : TorchTensor := ⟨3, .float32, 1792, 1⟩

/-- Output tensor for the `gemm_a8w8` witnesses. -/
def yT : TorchTensor := ⟨4, .float16, 128, 1792⟩

/-- The kernel call `gemm_a8w8` performs on the witness tensors with
`splitK = 3` and empty lookup tables: the heuristic's medium-batch variant
with `KBatch = 8`. -/
def gemmCall : RowwiseCall :=
  ⟨.a8w8_rowwise_256x128x128x128_32x32_2x2_8x32x1_8x32x1_1x32x1x8_8x8x1_1x1_intrawave_v3,
   xqT, wqT, xsT, wsT, yT, none, 8⟩

set_option maxRecDepth 8000

/- ### Helper lemmas -/

/-- Filtering out a key is idempotent. -/
theorem filter_ne_fix {K V : Type} [DecidableEq K] (l : List (K × V)) (k : K) :
    (l.filter (fun q => decide (q.1 ≠ k))).filter (fun q => decide (q.1 ≠ k)) =
      l.filter (fun q => decide (q.1 ≠ k)) := by
  rw [List.filter_eq_self]
  intro a ha
  have hp := List.of_mem_filter ha
  simpa using hp

/-- A prefix of a key-filtered list is still key-filtered. -/
theorem take_filter_ne_fix {K V : Type} [DecidableEq K] (l : List (K × V)) (k : K) (n : Nat) :
    ((l.filter (fun q => decide (q.1 ≠ k))).take n).filter (fun q => decide (q.1 ≠ k)) =
      (l.filter (fun q => decide (q.1 ≠ k))).take n := by
  rw [List.filter_eq_self]
  intro a ha
  have hp := List.of_mem_filter (List.take_subset _ _ ha)
  simpa using hp

/-- A cache hit moves the entry to the front, filtering the key out of the
tail, and keeps the capacity. -/
theorem LRUCache.get_hit_shape {K V : Type} [DecidableEq K] {c c' : LRUCache K V}
    {k : K} {v : V} (h : c.get k = (some v, c')) :
    c' = ⟨c.capacity, (k, v) :: c.entries.filter (fun q => decide (q.1 ≠ k))⟩ := by
  unfold LRUCache.get at h
  split at h
  · simp at h
  · next p hf =>
      injection h with h1 h2
      injection h1 with h1
      subst h1
      subst h2
      rfl

/-- Looking up the front key returns its value and leaves the cache unchanged
(when the tail does not repeat the key). -/
theorem LRUCache.get_front {K V : Type} [DecidableEq K] (cap : Int) (k : K) (v : V)
    (rest : List (K × V)) (hrest : rest.filter (fun q => decide (q.1 ≠ k)) = rest) :
    (LRUCache.get ⟨cap, (k, v) :: rest⟩ k) = (some v, ⟨cap, (k, v) :: rest⟩) := by
  have hfind : List.find? (fun p => decide (p.1 = k)) ((k, v) :: rest) = some (k, v) := by
    simp [List.find?]
  have hfil : ((k, v) :: rest).filter (fun q => decide (q.1 ≠ k)) = rest := by
    rw [List.filter_cons, if_neg (by simp), hrest]
  unfold LRUCache.get
  simp only [hfind]
  rw [hfil]

/-- With a nonzero capacity, `put` leaves the new binding at the front (the
tail being key-filtered). -/
theorem LRUCache.put_shape {K V : Type} [DecidableEq K] (c : LRUCache K V) (k : K) (v : V)
    (hcap : c.capacity ≠ 0) :
    ∃ rest, c.put k v = ⟨c.capacity, (k, v) :: rest⟩ ∧
      rest.filter (fun q => decide (q.1 ≠ k)) = rest := by
  unfold LRUCache.put
  by_cases hc : 0 ≤ c.capacity ∧
      c.capacity.toNat < ((k, v) :: c.entries.filter (fun q => decide (q.1 ≠ k))).length
  · rw [if_pos hc]
    have h1 : 1 ≤ c.capacity.toNat := by omega
    obtain ⟨n, hn⟩ : ∃ n, c.capacity.toNat = n + 1 := ⟨c.capacity.toNat - 1, by omega⟩
    refine ⟨(c.entries.filter (fun q => decide (q.1 ≠ k))).take n, ?_, ?_⟩
    · rw [hn, List.take_succ_cons]
    · exact take_filter_ne_fix c.entries k n
  · rw [if_neg hc]
    exact ⟨c.entries.filter (fun q => decide (q.1 ≠ k)), rfl, filter_ne_fix c.entries k⟩

/-- A cache miss leaves the cache unchanged. -/
theorem LRUCache.get_miss_eq {K V : Type} [DecidableEq K] {c c' : LRUCache K V}
    {k : K} (h : c.get k = (none, c')) : c' = c := by
  unfold LRUCache.get at h
  split at h
  · injection h with h1 h2
    exact h2.symm
  · next p hf =>
      injection h with h1 h2
      exact absurd h1 (by simp)

/-- Lower-casing commutes with underscore-joining (the delimiter is not a
letter). -/
theorem lower_join : ∀ args : List (List Char),
    lowerStr (joinUnderscore args) = joinUnderscore (args.map lowerStr)
  | [] => rfl
  | [_] => rfl
  | a :: b :: rest => by
      have ih := lower_join (b :: rest)
      show lowerStr (a ++ '_' :: joinUnderscore (b :: rest)) =
        joinUnderscore (lowerStr a :: lowerStr b :: rest.map lowerStr)
      unfold lowerStr
      rw [List.map_append, List.map_cons]
      unfold lowerStr at ih
      rw [show cToLower '_' = '_' from by decide, ih]
      rfl

/-- After a successful `get_or_create`, the canonical string is bound to the
returned identifier at the front of the cache. -/
theorem gdf_ok_shape {st st1 : LRUCache (List Char) (List Char)}
    {md_name : List Char} {args : List (List Char)} {id1 : List Char}
    (h : get_default_func_name st md_name args = .ok (st1, id1)) :
    ∃ cap rest, st1 = ⟨cap, (canonical_signature args, id1) :: rest⟩ ∧
      rest.filter (fun q => decide (q.1 ≠ canonical_signature args)) = rest := by
  simp only [get_default_func_name] at h
  cases hg : (st.get (canonical_signature args)).1 with
  | some fn =>
      simp only [hg] at h
      injection h with h1
      injection h1 with ha hb
      have hpair : st.get (canonical_signature args) =
          (some fn, (st.get (canonical_signature args)).2) := by
        rw [← hg]
      have hshape := LRUCache.get_hit_shape hpair
      refine ⟨st.capacity, st.entries.filter
        (fun q => decide (q.1 ≠ canonical_signature args)), ?_, ?_⟩
      · rw [← ha, ← hb, hshape]
      · exact filter_ne_fix st.entries (canonical_signature args)
  | none =>
      simp only [hg] at h
      generalize hP : (st.get (canonical_signature args)).2.put (canonical_signature args)
          (md_name ++ '_' :: hash_signature (canonical_signature args)) = P at h
      cases hg2 : (P.get (canonical_signature args)).1 with
      | some fn =>
          simp only [hg2] at h
          injection h with h1
          injection h1 with ha hb
          have hpair : P.get (canonical_signature args) =
              (some fn, (P.get (canonical_signature args)).2) := by
            rw [← hg2]
          have hshape := LRUCache.get_hit_shape hpair
          refine ⟨P.capacity,
            P.entries.filter (fun q => decide (q.1 ≠ canonical_signature args)),
            ?_, filter_ne_fix P.entries (canonical_signature args)⟩
          rw [← ha, ← hb]
          exact hshape
      | none =>
          simp only [hg2] at h
          exact Except.noConfusion h

/-- After a successful `run_lib`, the function name is bound at the front of
the `libs` cache to the handle that was invoked, and the entry point
resolves in that handle. -/
theorem run_lib_ok_shape {os : OS} {root : String} {st st1 : LibsState}
    {fn folder : String} {lib1 : SharedLibrary}
    (h : run_lib os root st fn folder = .ok (st1, lib1)) :
    (∃ cap rest, st1.libs = ⟨cap, (fn, lib1) :: rest⟩ ∧
        rest.filter (fun q => decide (q.1 ≠ fn)) = rest) ∧
    os.has_symbol lib1.path fn = true := by
  simp only [run_lib] at h
  cases hg : (st.libs.get fn).1 with
  | some lib =>
      simp only [hg] at h
      by_cases hs : os.has_symbol lib.path fn = true
      · rw [if_pos hs] at h
        injection h with h1
        injection h1 with ha hb
        have hpair : st.libs.get fn = (some lib, (st.libs.get fn).2) := by rw [← hg]
        have hshape := LRUCache.get_hit_shape hpair
        subst hb
        refine ⟨⟨st.libs.capacity,
          st.libs.entries.filter (fun q => decide (q.1 ≠ fn)), ?_,
          filter_ne_fix st.libs.entries fn⟩, hs⟩
        have ha2 : st1.libs = (st.libs.get fn).2 := by rw [← ha]
        rw [ha2]
        exact hshape
      · rw [if_neg hs] at h
        exact Except.noConfusion h
  | none =>
      simp only [hg] at h
      by_cases hd : os.dlopen_ok (libPath root folder) = true
      · rw [if_pos hd] at h
        generalize hP : (st.libs.get fn).2.put fn
            ⟨libPath root folder, st.nextLoadId⟩ = P at h
        cases hg2 : (P.get fn).1 with
        | some lib =>
            simp only [hg2] at h
            by_cases hs : os.has_symbol lib.path fn = true
            · rw [if_pos hs] at h
              injection h with h1
              injection h1 with ha hb
              have hpair : P.get fn = (some lib, (P.get fn).2) := by rw [← hg2]
              have hshape := LRUCache.get_hit_shape hpair
              subst hb
              refine ⟨⟨P.capacity,
                P.entries.filter (fun q => decide (q.1 ≠ fn)), ?_,
                filter_ne_fix P.entries fn⟩, hs⟩
              have ha2 : st1.libs = (P.get fn).2 := by rw [← ha]
              rw [ha2]
              exact hshape
            · rw [if_neg hs] at h
              exact Except.noConfusion h
        | none =>
            simp only [hg2] at h
            exact Except.noConfusion h
      · rw [if_neg hd] at h
        exact Except.noConfusion h

/-- Lower bound on the fuel-based logarithm: `n` is below the next power of
two, and the exponent stays within the fuel. -/
theorem log2Fuel_bound : ∀ (fuel n : Nat), 1 ≤ n → n < 2 ^ fuel →
    n < 2 ^ (log2Fuel fuel n + 1) ∧ log2Fuel fuel n + 1 ≤ fuel
  | 0, n, h1, h2 => absurd h2 (by simp; omega)
  | fuel + 1, n, h1, h2 => by
      unfold log2Fuel
      by_cases h : 2 ≤ n
      · rw [if_pos h]
        have hn2 : 1 ≤ n / 2 := by omega
        have hlt : n / 2 < 2 ^ fuel := by
          have hp : (2 : Nat) ^ (fuel + 1) = 2 ^ fuel * 2 := by ring
          omega
        obtain ⟨ih1, ih2⟩ := log2Fuel_bound fuel (n / 2) hn2 hlt
        have hp2 : (2 : Nat) ^ (log2Fuel fuel (n / 2) + 1 + 1) =
            2 * 2 ^ (log2Fuel fuel (n / 2) + 1) := by ring
        constructor
        · omega
        · omega
      · rw [if_neg h]
        have hp1 : (2 : Nat) ^ (0 + 1) = 2 := by norm_num
        constructor
        · omega
        · omega

/-- `nextPow2` never decreases a dimension in the range the dispatcher pads. -/
theorem le_nextPow2 (M : Nat) (h2 : M ≤ 16384) : M ≤ nextPow2 M := by
  unfold nextPow2
  by_cases h : M ≤ 1
  · rw [if_pos h]; omega
  · rw [if_neg h]
    have hx1 : 1 ≤ M - 1 := by omega
    have hx2 : M - 1 < 2 ^ 32 := by
      have hp : (2 : Nat) ^ 32 = 4294967296 := by norm_num
      omega
    obtain ⟨b1, b2⟩ := log2Fuel_bound 32 (M - 1) hx1 hx2
    unfold clz32
    have he : 32 - (32 - (log2Fuel 32 (M - 1) + 1)) = log2Fuel 32 (M - 1) + 1 := by
      omega
    rw [he]
    omega

/-- The translated decision tree and the spec's guard ladder agree, and the
ladder never reaches the `none` terminal state. -/
theorem firstHit_heuristic (M N K : Nat) :
    firstHit (heuristicLadder M N K) = some (rowwise_heuristic_dispatch M N K) := by
  simp only [heuristicLadder, firstHit, rowwise_heuristic_dispatch,
    decide_eq_true_eq, Bool.if_true_left]
  split_ifs <;> rfl

/- ### Claim theorems -/

/-- C2: for every `(M, N, K)` present in the exact lookup table,
`rowwise_dispatch` returns that table entry's kernel variant: the exact
lookup is performed first and returns immediately on a hit, never falling
through to the padded lookup or the heuristic. -/
theorem rowwise_dispatch_exact (lookup : Nat × Nat × Nat → Option RowwiseKernel)
    (M N K : Nat) (kernel : RowwiseKernel) (h : lookup (M, N, K) = some kernel) :
    rowwise_dispatch lookup M N K = kernel := by
  unfold rowwise_dispatch
  rw [h]

/-- Witness for C2 at a concrete one-entry table. -/
theorem rowwise_dispatch_exact_witness :
    rowwise_dispatch exactTable 128 1536 7168 = .lookup_variant 0 :=
  rowwise_dispatch_exact exactTable 128 1536 7168 (.lookup_variant 0) (by decide)

/-- C3: when the exact lookup misses for a positive `M`, `rowwise_dispatch`
retries the lookup with `M` padded by the bucketing rule and returns that
entry on a hit; the rule maps `(1, 16]` to 16, then `M ≤ 16384` to the next
power of two (never smaller than `M`), then `M ≤ 20480` to 20480, and leaves
larger `M` unchanged; in particular 5 pads to 16, 300 to 512 and 18000 to
20480. -/
theorem rowwise_dispatch_padding :
    (∀ (lookup : Nat × Nat × Nat → Option RowwiseKernel) (M N K : Nat)
        (kernel : RowwiseKernel), 1 ≤ M → lookup (M, N, K) = none →
        lookup (padM M, N, K) = some kernel →
        rowwise_dispatch lookup M N K = kernel)
    ∧ (∀ M : Nat, 1 < M → M ≤ 16 → padM M = 16)
    ∧ (∀ M : Nat, ¬ (1 < M ∧ M ≤ 16) → M ≤ 16384 →
        padM M = nextPow2 M ∧ M ≤ padM M)
    ∧ (∀ M : Nat, 16384 < M → M ≤ 20480 → padM M = 20480)
    ∧ (∀ M : Nat, 20480 < M → padM M = M)
    ∧ padM 5 = 16 ∧ padM 300 = 512 ∧ padM 18000 = 20480 := by
  refine ⟨?_, ?_, ?_, ?_, ?_, by decide, by decide, by decide⟩
  · intro lookup M N K kernel _ h2 h3
    unfold rowwise_dispatch
    rw [h2, h3]
  · intro M h1 h2
    unfold padM
    rw [if_pos ⟨h1, h2⟩]
  · intro M h1 h2
    unfold padM
    rw [if_neg h1, if_pos h2]
    exact ⟨rfl, le_nextPow2 M h2⟩
  · intro M h1 h2
    unfold padM
    rw [if_neg (by omega), if_neg (by omega), if_pos h2]
  · intro M h1
    unfold padM
    rw [if_neg (by omega), if_neg (by omega), if_neg (by omega)]

/-- Witness for C3: `(5, 64, 64)` misses, pads to `(16, 64, 64)` and resolves
under the padded key. -/
theorem rowwise_dispatch_padding_witness :
    rowwise_dispatch paddedTable 5 64 64 = .lookup_variant 3 ∧
    padM 5 = 16 ∧ padM 300 = 512 ∧ padM 18000 = 20480 :=
  ⟨rowwise_dispatch_padding.1 paddedTable 5 64 64 (.lookup_variant 3)
      (by decide) (by decide) (by decide),
   rowwise_dispatch_padding.2.2.2.2.2⟩

/-- C4: for every `(M, N, K)` with all dimensions at least 1, `select`
returns exactly one kernel variant, and the heuristic fallback ladder,
evaluated first-matching-branch-wins, never reaches a "no kernel found"
terminal state (it always produces the variant the translated decision tree
returns). -/
theorem rowwise_dispatch_total (lookup : Nat × Nat × Nat → Option RowwiseKernel)
    (M N K : Nat) (_hM : 1 ≤ M) (_hN : 1 ≤ N) (_hK : 1 ≤ K) :
    (∃! kernel, rowwise_dispatch lookup M N K = kernel) ∧
    firstHit (heuristicLadder M N K) = some (rowwise_heuristic_dispatch M N K) :=
  ⟨⟨rowwise_dispatch lookup M N K, rfl, fun _ hy => hy.symm⟩,
   firstHit_heuristic M N K⟩

/-- Witness for C4 at the all-ones shape and the empty table. -/
theorem rowwise_dispatch_total_witness :
    (∃! kernel, rowwise_dispatch (fun _ => none) 1 1 1 = kernel) ∧
    firstHit (heuristicLadder 1 1 1) = some (rowwise_heuristic_dispatch 1 1 1) :=
  rowwise_dispatch_total (fun _ => none) 1 1 1 (by decide) (by decide) (by decide)

/-- C1 counterexample: the identifier cache is keyed by the canonical string
alone, so when module `"b"` calls `get_or_create` with a signature that
module `"a"` already cached, the hit returns the identifier inserted by
`"a"` — its prefix is `"a"`, not the calling module's `"b"` as the claim
requires. -/
theorem get_default_func_name_prefix_counterexample :
    second_module_call =
      .ok (⟨-1, [("x".data, 'a' :: '_' :: hash_signature "x".data)]⟩,
        'a' :: '_' :: hash_signature "x".data) ∧
    ('a' :: '_' :: hash_signature "x".data) ≠
      ('b' :: '_' :: hash_signature "x".data) := by
  exact ⟨by rfl, by decide⟩

/-- C1 (amended): when the canonical string is not already present in the
identifier cache (and the cache's capacity is not the degenerate 0),
`get_or_create` returns exactly `module_name ++ "_" ++ digest(canonical
string)`; on a hit it instead returns the identifier stored by the inserting
call, whose prefix is the inserting module's name. -/
theorem get_default_func_name_miss (st : LRUCache (List Char) (List Char))
    (md_name : List Char) (args : List (List Char))
    (hmiss : (st.get (canonical_signature args)).1 = none)
    (hcap : st.capacity ≠ 0) :
    ∃ st', get_default_func_name st md_name args =
      .ok (st', md_name ++ '_' :: hash_signature (canonical_signature args)) := by
  have hpair : st.get (canonical_signature args) = (none, st) := by
    cases hg : st.get (canonical_signature args) with
    | mk fst snd =>
        have h1 : fst = none := by rw [hg] at hmiss; exact hmiss
        subst h1
        rw [LRUCache.get_miss_eq hg]
  obtain ⟨rest, hput, hfix⟩ := LRUCache.put_shape st (canonical_signature args)
    (md_name ++ '_' :: hash_signature (canonical_signature args)) hcap
  refine ⟨st.put (canonical_signature args)
    (md_name ++ '_' :: hash_signature (canonical_signature args)), ?_⟩
  simp only [get_default_func_name, hpair]
  rw [hput, LRUCache.get_front st.capacity _ _ rest hfix]

/-- Witness for the amended C1 on an empty unbounded cache. -/
theorem get_default_func_name_miss_witness :
    ∃ st', get_default_func_name (init_lru_cache none) "gemm".data
        ["I8".data, "B16".data] =
      .ok (st', "gemm".data ++ '_' ::
        hash_signature (canonical_signature ["I8".data, "B16".data])) :=
  get_default_func_name_miss (init_lru_cache none) "gemm".data
    ["I8".data, "B16".data] (by rfl) (by decide)

/-- C5 counterexample: a non-numeric override such as `"unbounded"` is
converted by `atoi` to 0, not to the `-1` sentinel that marks a cache as
unbounded, and the resulting zero-capacity cache evicts the freshly inserted
key immediately — the claim's "never evicts" fails. -/
theorem init_lru_cache_nonnumeric_counterexample :
    (init_lru_cache (some "unbounded".data) : LRUCache String Nat).capacity = 0 ∧
    (init_lru_cache (some "unbounded".data) : LRUCache String Nat).capacity ≠ -1 ∧
    ((init_lru_cache (some "unbounded".data) : LRUCache String Nat).put "k" 7).entries
      = [] := by
  exact ⟨by decide, by decide, by decide⟩

/-- C5 (amended): when the maximum-cache-size override is absent, both LRU
caches (identifier cache and artifact cache) are configured with the
unbounded sentinel `-1`, and a cache with a negative capacity never evicts:
every `put` keeps the inserted key and every previously present entry with a
different key, regardless of how many insertions are performed.  A
non-numeric override instead parses to 0, which is not the sentinel. -/
theorem init_lru_cache_unbounded :
    ((init_lru_cache none : LRUCache (List Char) (List Char)).capacity = -1 ∧
     (init_lru_cache none : LRUCache String SharedLibrary).capacity = -1) ∧
    ∀ (K V : Type) [DecidableEq K] (c : LRUCache K V) (k : K) (v : V),
      c.capacity < 0 →
      (k, v) ∈ (c.put k v).entries ∧
      ∀ p ∈ c.entries, p.1 ≠ k → p ∈ (c.put k v).entries := by
  refine ⟨⟨by decide, by decide⟩, ?_⟩
  intro K V _ c k v hneg
  unfold LRUCache.put
  rw [if_neg (fun hc => (not_le.mpr hneg) hc.1)]
  constructor
  · exact List.mem_cons_self _ _
  · intro p hp hpk
    apply List.mem_cons_of_mem
    rw [List.mem_filter]
    exact ⟨hp, decide_eq_true hpk⟩

/-- Witness for the amended C5: an unbounded cache retains both the old and
the new key across an insertion. -/
theorem init_lru_cache_unbounded_witness :
    ("b", 1) ∈ ((⟨-1, [("a", 0)]⟩ : LRUCache String Nat).put "b" 1).entries ∧
    ("a", 0) ∈ ((⟨-1, [("a", 0)]⟩ : LRUCache String Nat).put "b" 1).entries := by
  have h := init_lru_cache_unbounded.2 String Nat
    (⟨-1, [("a", 0)]⟩ : LRUCache String Nat) "b" 1 (by decide)
  exact ⟨h.1, h.2 ("a", 0) (by decide) (by decide)⟩

/-- C6 counterexample: the source throws `std::runtime_error` for a missing
artifact and for a missing entry point alike — the missing-artifact failure
does not carry an error kind distinct from the load/symbol failures, it
differs only in the carried message.  (`not_built` does return true
beforehand, which is the part of the claim that survives.) -/
theorem run_lib_error_kind_counterexample :
    runErrClass (run_lib osMissing "/r" emptyLibsState "gemm_x" "gemm") =
      some .runtimeErr ∧
    runErrClass (run_lib osNoSymbol "/r" emptyLibsState "gemm_x" "gemm") =
      some .runtimeErr ∧
    not_built osMissing "/r" "gemm" = true := by
  exact ⟨by rfl, by rfl, by rfl⟩

/-- C6 (amended): when the expected artifact path does not exist (and the
identifier is not already cached), `run_lib` fails by throwing
`std::runtime_error` carrying the dynamic loader's error message — the same
exception type used for load and symbol failures, there is no distinct
`ArtifactMissingError` kind — and `not_built(folder)` returns true
beforehand. -/
theorem run_lib_missing_artifact (os : OS) (root : String) (st : LibsState)
    (func_name folder : String)
    (hmiss : (st.libs.get func_name).1 = none)
    (habsent : os.fs_exist (libPath root folder) = false) :
    run_lib os root st func_name folder =
      .error (.runtime_error (os.dl_err (libPath root folder))) ∧
    not_built os root folder = true := by
  constructor
  · simp only [run_lib, hmiss]
    have hdl : os.dlopen_ok (libPath root folder) = false := by
      unfold OS.dlopen_ok
      rw [habsent]
      rfl
    rw [if_neg (by rw [hdl]; exact Bool.false_ne_true)]
  · unfold not_built
    rw [habsent]
    rfl

/-- Witness for the amended C6 in an environment with no files. -/
theorem run_lib_missing_artifact_witness :
    run_lib osMissing "/r" emptyLibsState "gemm_x" "gemm" =
      .error (.runtime_error (osMissing.dl_err (libPath "/r" "gemm"))) ∧
    not_built osMissing "/r" "gemm" = true :=
  run_lib_missing_artifact osMissing "/r" emptyLibsState "gemm_x" "gemm"
    (by rfl) (by rfl)

/-- C7: after a successful `run_lib`, running the same identifier again
returns the very same handle (the same underlying loaded-library resource,
with the same load identity) and leaves the state unchanged — in particular
the load log does not grow, so the artifact is not loaded from disk again. -/
theorem run_lib_idempotent (os : OS) (root : String) (st : LibsState)
    (fn folder : String) (st1 : LibsState) (lib1 : SharedLibrary)
    (h : run_lib os root st fn folder = .ok (st1, lib1)) :
    run_lib os root st1 fn folder = .ok (st1, lib1) := by
  obtain ⟨⟨cap, rest, hlibs, hfix⟩, hsym⟩ := run_lib_ok_shape h
  have hget : st1.libs.get fn = (some lib1, st1.libs) := by
    rw [hlibs]
    exact LRUCache.get_front cap fn lib1 rest hfix
  simp only [run_lib, hget, hsym, if_true]

/-- Witness for C7: a second call after a concrete successful load returns
the same handle and the same state. -/
theorem run_lib_idempotent_witness :
    run_lib osOk "/r" loadedLibsState "gemm_x" "gemm" =
      .ok (loadedLibsState, ⟨libPath "/r" "gemm", 0⟩) :=
  run_lib_idempotent osOk "/r" emptyLibsState "gemm_x" "gemm" loadedLibsState
    ⟨libPath "/r" "gemm", 0⟩ (by rfl)

/-- C8: two argument signatures that agree after lower-casing canonicalize to
the same canonical string, so after a successful `get_or_create` on the
first, `get_or_create` on the second returns the very same identifier (and
leaves the cache unchanged). -/
theorem get_default_func_name_case_insensitive
    (st : LRUCache (List Char) (List Char)) (md_name : List Char)
    (args1 args2 : List (List Char)) (st1 : LRUCache (List Char) (List Char))
    (id1 : List Char)
    (hcase : args1.map lowerStr = args2.map lowerStr)
    (h : get_default_func_name st md_name args1 = .ok (st1, id1)) :
    canonical_signature args1 = canonical_signature args2 ∧
    get_default_func_name st1 md_name args2 = .ok (st1, id1) := by
  have hcanon : canonical_signature args1 = canonical_signature args2 := by
    unfold canonical_signature
    rw [lower_join, lower_join, hcase]
  refine ⟨hcanon, ?_⟩
  obtain ⟨cap, rest, hshape, hfix⟩ := gdf_ok_shape h
  have hget : st1.get (canonical_signature args2) = (some id1, st1) := by
    rw [← hcanon, hshape]
    exact LRUCache.get_front cap _ _ rest hfix
  simp only [get_default_func_name, hget]

/-- Witness for C8: `["I8", "B16"]` and `["i8", "b16"]` collapse to one
identifier. -/
theorem get_default_func_name_case_insensitive_witness :
    canonical_signature ["I8".data, "B16".data] =
      canonical_signature ["i8".data, "b16".data] ∧
    get_default_func_name gemmIdCache "gemm".data ["i8".data, "b16".data] =
      .ok (gemmIdCache, gemmId) :=
  get_default_func_name_case_insensitive (init_lru_cache none) "gemm".data
    ["I8".data, "B16".data] ["i8".data, "b16".data] gemmIdCache gemmId
    (by decide) (by rfl)

/-- C9: whenever `gemm_a8w8` passes its dtype checks (i.e. does not throw),
the tensor it returns is the very output tensor `Y` the caller supplied, and
the selected kernel is invoked with that same tensor as its output
argument. -/
theorem gemm_a8w8_returns_output
    (tables : CkType × CkType × CkType → Nat × Nat × Nat → Option RowwiseKernel)
    (XQ WQ x_scale w_scale Y : TorchTensor) (bias : Option TorchTensor)
    (splitK : Nat) (rcall : RowwiseCall) (t : TorchTensor)
    (h : gemm_a8w8 tables XQ WQ x_scale w_scale Y bias splitK = .ok (rcall, t)) :
    t = Y ∧ rcall.y = Y := by
  simp only [gemm_a8w8] at h
  split_ifs at h <;>
    first
      | exact Except.noConfusion h
      | · injection h with h1
          injection h1 with ha hb
          subst hb
          subst ha
          exact ⟨rfl, rfl⟩

/-- Witness for C9 on concrete int8/f32/f16 tensors. -/
theorem gemm_a8w8_returns_output_witness : yT = yT ∧ gemmCall.y = yT :=
  gemm_a8w8_returns_output (fun _ _ => none) xqT wqT xsT wsT yT none 3
    gemmCall yT (by rfl)

/-- C10: the split-K value `gemm_a8w8` forwards to the selected kernel is
`2 ^ splitK` — the caller's argument is a base-2 exponent, not the split
count itself (so `splitK = 0` forwards 1 and `splitK = 3` forwards 8). -/
theorem gemm_a8w8_kbatch
    (tables : CkType × CkType × CkType → Nat × Nat × Nat → Option RowwiseKernel)
    (XQ WQ x_scale w_scale Y : TorchTensor) (bias : Option TorchTensor)
    (splitK : Nat) (rcall : RowwiseCall) (t : TorchTensor)
    (h : gemm_a8w8 tables XQ WQ x_scale w_scale Y bias splitK = .ok (rcall, t)) :
    rcall.kbatch = 2 ^ splitK := by
  simp only [gemm_a8w8] at h
  split_ifs at h <;>
    first
      | exact Except.noConfusion h
      | · injection h with h1
          injection h1 with ha hb
          subst ha
          rfl

/-- Witness for C10: `splitK = 3` forwards `KBatch = 8`. -/
theorem gemm_a8w8_kbatch_witness : gemmCall.kbatch = 2 ^ 3 :=
  gemm_a8w8_kbatch (fun _ _ => none) xqT wqT xsT wsT yT none 3
    gemmCall yT (by rfl)
